import Mathlib

/-!
Shallow embedding of the PubMed drug-development search page
(`src/app/page.tsx`): the XML record parser, the rendering helpers, and
the `searchPapers` orchestration, modelled as pure Lean functions.

Modelling conventions:
* XML documents (the output of `DOMParser.parseFromString`) are a tree
  `Xml` of elements and text nodes.  `querySelector`/`querySelectorAll`
  are modelled over this tree with document-order (preorder) semantics.
* JS strings are Lean `String`s; JS builtins used by the page
  (`||` on strings, `.trim()`, `.substring(0, n)`, `.length`,
  `encodeURIComponent`, `parseInt`) are modelled explicitly below.
* The two `fetch` calls are modelled by a `Provider` environment: each
  call either rejects (network failure) or resolves with an HTTP
  success flag and a body.  Reading the body (`.json()` / `.text()`)
  may itself fail.  The component state is a `UIState` record and
  `searchPapers` is a state transition that also logs which request
  URLs were issued.
-/

/-- XML node: an element with a tag, attributes and children, or a text node. -/
inductive Xml where
  | elem (tag : String) (attrs : List (String × String)) (children : List Xml)
  | text (s : String)
deriving Repr

mutual

/-- Model of the DOM `textContent` property: concatenation of all text
descendants in document order. -/
def textContent : Xml → String
  | .text s => s
  | .elem _ _ cs => textContentList cs

def textContentList : List Xml → String
  | [] => ""
  | c :: cs => textContent c ++ textContentList cs

end

/-- First value of a named attribute, if present. -/
def getAttr (attrs : List (String × String)) (name : String) : Option String :=
  (attrs.find? (fun kv => kv.1 = name)).map (fun kv => kv.2)

mutual

/-- All element nodes satisfying `p` in the subtree rooted at a node
(including the node itself), in document (preorder) order. -/
def matchesInNode (p : String → List (String × String) → Bool) : Xml → List Xml
  | .text _ => []
  | .elem t a cs =>
      (if p t a then [Xml.elem t a cs] else []) ++ matchesInForest p cs

def matchesInForest (p : String → List (String × String) → Bool) : List Xml → List Xml
  | [] => []
  | c :: cs => matchesInNode p c ++ matchesInForest p cs

end

/-- Model of `el.querySelectorAll(sel)` for a simple selector: all strict
descendants of `x` matching `p`, in document order. -/
def queryAll (x : Xml) (p : String → List (String × String) → Bool) : List Xml :=
  match x with
  | .text _ => []
  | .elem _ _ cs => matchesInForest p cs

/-- Model of `el.querySelector(sel)` for a simple selector: the first strict
descendant matching `p` in document order, if any. -/
def queryFirst (x : Xml) (p : String → List (String × String) → Bool) : Option Xml :=
  (queryAll x p).head?

/-- Tag-name selector, e.g. `'PMID'`. -/
def byTag (tag : String) : String → List (String × String) → Bool :=
  fun t _ => t = tag

/-- Attribute-value selector, e.g. `'ArticleId[IdType="doi"]'`. -/
def byTagAttr (tag attr val : String) : String → List (String × String) → Bool :=
  fun t a => t = tag ∧ getAttr a attr = some val

mutual

/-- Elements with tag `inner` that have a (strict) ancestor with tag `outer`,
restricted to a forest; `flag` records whether such an ancestor has already
been passed. Document (preorder) order. -/
def descUnderNode (outer inner : String) (flag : Bool) : Xml → List Xml
  | .text _ => []
  | .elem t a cs =>
      (if flag ∧ t = inner then [Xml.elem t a cs] else []) ++
        descUnderForest outer inner (flag ∨ t = outer) cs

def descUnderForest (outer inner : String) (flag : Bool) : List Xml → List Xml
  | [] => []
  | c :: cs => descUnderNode outer inner flag c ++ descUnderForest outer inner flag cs

end

/-- Model of `el.querySelector('Outer Inner')` (descendant combinator): the
first descendant of `x` with tag `inner` lying under an element with tag
`outer` (the scope element `x` itself may serve as the outer ancestor;
ancestors above `x` are not modelled, matching the PubMed payload shape). -/
def queryFirstDesc (x : Xml) (outer inner : String) : Option Xml :=
  match x with
  | .text _ => none
  | .elem t _ cs => (descUnderForest outer inner (t = outer) cs).head?

/-- Model of the JS `||` operator on strings: the empty string is falsy. -/
def jsOr (s d : String) : String :=
  if s = "" then d else s

/-- Model of `el?.textContent`: the empty string when the element is absent
(the page always feeds the result to `||`, which sends both `undefined` and
`''` to the default). -/
def optText (o : Option Xml) : String :=
  match o with
  | some el => textContent el
  | none => ""

/-- Model of the JS string `.trim()` builtin (whitespace stripped at both ends). -/
def jsTrim (s : String) : String :=
  String.mk (((s.data.dropWhile Char.isWhitespace).reverse.dropWhile Char.isWhitespace).reverse)

/-- Model of the JS `.substring(0, n)` builtin. -/
def jsSubstringTo (s : String) (n : Nat) : String :=
  String.mk (s.data.take n)

/-- The `Paper` interface of `page.tsx` (lines 5-14). -/
structure Paper where
  id : String
  title : String
  authors : List String
  abstract : String
  journal : String
  year : String
  pmid : String
  doi : Option String
deriving Repr, DecidableEq

/-- Author display names observed by the parser (`page.tsx` lines 70-78):
for each `Author` descendant, take `ForeName`/`LastName` text, skip authors
with neither name, and trim the concatenation. This is the list before the
`slice(0, 5)` display cap. -/
def observedAuthors (article : Xml) : List String :=
  (queryAll article (byTag "Author")).filterMap (fun author =>
    let lastName := jsOr (optText (queryFirst author (byTag "LastName"))) ""
    let foreName := jsOr (optText (queryFirst author (byTag "ForeName"))) ""
    if lastName = "" ∧ foreName = "" then none
    else some (jsTrim (foreName ++ " " ++ lastName)))

/-- Per-article body of the `articles.forEach` loop (`page.tsx` lines 62-92):
builds a `Paper` when both an `ArticleTitle` and a `PMID` sub-element are
present, otherwise produces nothing. -/
def parseArticle (article : Xml) : Option Paper :=
  let titleEl := queryFirst article (byTag "ArticleTitle")
  let abstractEl := queryFirst article (byTag "AbstractText")
  let journalEl := queryFirstDesc article "Journal" "Title"
  let yearEl := queryFirstDesc article "PubDate" "Year"
  let pmidEl := queryFirst article (byTag "PMID")
  let doiEl := queryFirst article (byTagAttr "ArticleId" "IdType" "doi")
  let authors := observedAuthors article
  match titleEl, pmidEl with
  | some titleE, some pmidE =>
      some {
        id := jsOr (textContent pmidE) ""
        title := jsOr (textContent titleE) ""
        authors := authors.take 5
        abstract := jsOr (optText abstractEl) "No abstract available"
        journal := jsOr (optText journalEl) "Unknown Journal"
        year := jsOr (optText yearEl) "N/A"
        pmid := jsOr (textContent pmidE) ""
        doi := if optText doiEl = "" then none else some (optText doiEl) }
  | _, _ => none

/-- The record parser (`page.tsx` lines 58-92): every `PubmedArticle` node of
the parsed document, in document order, through `parseArticle`. -/
def parseArticles (xmlDoc : Xml) : List Paper :=
  (queryAll xmlDoc (byTag "PubmedArticle")).filterMap parseArticle

/-- Abstract rendering (`page.tsx` lines 192-196). -/
def renderAbstract (p : Paper) : String :=
  if p.abstract.length > 400 then jsSubstringTo p.abstract 400 ++ "..." else p.abstract

/-- Author-line rendering (`page.tsx` lines 178-183): comma-joined names with
the marker appended exactly when the stored list has length 5. -/
def renderAuthorsLine (p : Paper) : String :=
  String.intercalate ", " p.authors ++ (if p.authors.length = 5 then " et al." else "")

/-- Hex digit (uppercase) of a value below 16, as `encodeURIComponent` emits. -/
def hexDigitChar (n : Nat) : Char :=
  if n < 10 then Char.ofNat (48 + n) else Char.ofNat (55 + n)

/-- UTF-8 byte values of a character, as `Nat`s. -/
def utf8Bytes (c : Char) : List Nat :=
  let n := c.toNat
  if n < 128 then [n]
  else if n < 2048 then [192 + n / 64, 128 + n % 64]
  else if n < 65536 then [224 + n / 4096, 128 + (n / 64) % 64, 128 + n % 64]
  else [240 + n / 262144, 128 + (n / 4096) % 64, 128 + (n / 64) % 64, 128 + n % 64]

/-- Characters `encodeURIComponent` leaves unescaped: ASCII alphanumerics and
`- _ . ! ~ * ' ( )` (the apostrophe is tested by code point 39). -/
def isUnescapedURI (c : Char) : Bool :=
  c.isAlpha ∨ c.isDigit ∨ ['-', '_', '.', '!', '~', '*', '(', ')'].contains c ∨ c.toNat = 39

/-- Encoding of one character: itself if unescaped, otherwise percent-escaped
UTF-8 bytes. -/
def encodeChar (c : Char) : List Char :=
  if isUnescapedURI c then [c]
  else ((utf8Bytes c).map (fun b => ['%', hexDigitChar (b / 16), hexDigitChar (b % 16)])).flatten

/-- Model of the JS `encodeURIComponent` builtin. -/
def encodeURIComponent (s : String) : String :=
  String.mk (s.data.map encodeChar).flatten

/-- Numeric value of a (radix-10) digit run; `none` when it is empty. -/
def digitsVal (l : List Char) : Option Nat :=
  let ds := l.takeWhile Char.isDigit
  if ds.isEmpty then none
  else some (ds.foldl (fun acc c => acc * 10 + (c.toNat - 48)) 0)

/-- Model of the JS `parseInt` builtin on the strings this page feeds it
(leading whitespace, optional sign, leading decimal digits; `none` is NaN.
Radix prefixes are not modelled). -/
def jsParseInt (s : String) : Option Int :=
  let l := s.data.dropWhile Char.isWhitespace
  match l with
  | '-' :: rest => (digitsVal rest).map (fun n => -(n : Int))
  | '+' :: rest => (digitsVal rest).map (fun n => (n : Int))
  | _ => (digitsVal l).map (fun n => (n : Int))

/-- Model of `parseInt(searchData.esearchresult.count) || 0` (`page.tsx`
line 48); an absent `count` field behaves like NaN. -/
def resultCountOf (count : Option String) : Int :=
  match count with
  | none => 0
  | some c =>
      match jsParseInt c with
      | none => 0
      | some n => n

/-- The fixed drug-development domain filter conjoined to the user text
(`page.tsx` line 35). -/
def domainFilter : String :=
  "(drug development[MeSH Terms] OR pharmaceutical development OR drug discovery)"

/-- The encoded search term (`page.tsx` line 35). -/
def searchTerm (query : String) : String :=
  encodeURIComponent (query ++ " AND " ++ domainFilter)

/-- The identifier-search URL (`page.tsx` line 36). -/
def searchUrl (query maxResults sortBy : String) : String :=
  "https://eutils.ncbi.nlm.nih.gov/entrez/eutils/esearch.fcgi?db=pubmed&term=" ++
    searchTerm query ++ "&retmax=" ++ maxResults ++ "&retmode=json&sort=" ++ sortBy

/-- The detail-fetch URL (`page.tsx` line 51). -/
def fetchUrl (ids : List String) : String :=
  "https://eutils.ncbi.nlm.nih.gov/entrez/eutils/efetch.fcgi?db=pubmed&id=" ++
    String.intercalate "," ids ++ "&retmode=xml"

/-- The `esearchresult` JSON object: both fields may be absent
(`searchData.esearchresult?.idlist?.length`, `page.tsx` lines 41-48). -/
structure Esearch where
  count : Option String
  idlist : Option (List String)
deriving Repr, DecidableEq

/-- Parsed identifier-search JSON body: the `esearchresult` key may be absent. -/
def SearchJson := Option Esearch

/-- Identifier-search response: HTTP success flag (never inspected by the
page) and the `.json()` outcome (`none` when reading/parsing the body throws). -/
structure SearchResponse where
  ok : Bool
  json : Option SearchJson

/-- Detail-fetch response: HTTP success flag (never inspected by the page)
and the `.text()` outcome, given directly as the `DOMParser` result
(`none` when reading the body throws; `DOMParser.parseFromString` itself
never throws). -/
structure DetailResponse where
  ok : Bool
  xmlDoc : Option Xml

/-- Environment for one `searchPapers` run: the outcome of each of the two
`fetch` calls; `.error ()` is a rejected fetch (network failure). -/
structure Provider where
  searchFetch : Except Unit SearchResponse
  detailFetch : Except Unit DetailResponse

/-- Component state touched by `searchPapers` (`page.tsx` lines 17-23). -/
structure UIState where
  query : String
  papers : List Paper
  loading : Bool
  error : String
  resultCount : Int
  maxResults : String
  sortBy : String
deriving Repr, DecidableEq

/-- Result of one `searchPapers` invocation: the final component state plus
the request URLs actually issued (for frame conditions). -/
structure RunLog where
  finalState : UIState
  searchRequested : Option String
  detailRequested : Option String
deriving Repr, DecidableEq

/-- User-visible generic failure message (`page.tsx` line 96). -/
def fetchErrorMsg : String :=
  "Failed to fetch research papers. Please try again."

/-- User-visible no-results message (`page.tsx` line 42). -/
def noResultsMsg : String :=
  "No research papers found. Try different keywords."

/-- Body of the `searchPapers` handler past the empty-query guard
(`page.tsx` lines 29-100): the `try` block, with each early-exit branch
mirroring the corresponding return/throw path of the source;
`setLoading(false)` from the `finally` block is applied on every path. -/
def searchPapersBody (s : UIState) (env : Provider) : RunLog :=
  let s1 : UIState := { s with loading := true, error := "", papers := [] }
    let sUrl := searchUrl s.query s.maxResults s.sortBy
    match env.searchFetch with
    | .error _ =>
        { finalState := { s1 with error := fetchErrorMsg, loading := false },
          searchRequested := some sUrl, detailRequested := none }
    | .ok resp =>
        match resp.json with
        | none =>
            { finalState := { s1 with error := fetchErrorMsg, loading := false },
              searchRequested := some sUrl, detailRequested := none }
        | some searchJson =>
            match searchJson with
            | none =>
                { finalState := { s1 with error := noResultsMsg, loading := false },
                  searchRequested := some sUrl, detailRequested := none }
            | some es =>
                match es.idlist with
                | none =>
                    { finalState := { s1 with error := noResultsMsg, loading := false },
                      searchRequested := some sUrl, detailRequested := none }
                | some ids =>
                    if ids.length = 0 then
                      { finalState := { s1 with error := noResultsMsg, loading := false },
                        searchRequested := some sUrl, detailRequested := none }
                    else
                      let s2 : UIState := { s1 with resultCount := resultCountOf es.count }
                      let fUrl := fetchUrl ids
                      match env.detailFetch with
                      | .error _ =>
                          { finalState := { s2 with error := fetchErrorMsg, loading := false },
                            searchRequested := some sUrl, detailRequested := some fUrl }
                      | .ok dresp =>
                          match dresp.xmlDoc with
                          | none =>
                              { finalState := { s2 with error := fetchErrorMsg, loading := false },
                                searchRequested := some sUrl, detailRequested := some fUrl }
                          | some xmlDoc =>
                              { finalState := { s2 with papers := parseArticles xmlDoc, loading := false },
                                searchRequested := some sUrl, detailRequested := some fUrl }

/-- The `searchPapers` handler (`page.tsx` lines 25-101) as a state
transition over `UIState`, the two awaited fetches supplied by `env`:
`if (!query.trim()) return` guard, then the `try` body. -/
def searchPapers (s : UIState) (env : Provider) : RunLog :=
  if jsTrim s.query = "" then
    { finalState := s, searchRequested := none, detailRequested := none }
  else
    searchPapersBody s env

/-- Visibility of the statistics line (`page.tsx` line 157):
`resultCount > 0 && !loading`. -/
def statsVisible (s : UIState) : Bool :=
  0 < s.resultCount ∧ s.loading = false

/-- Visibility of the error line (`page.tsx` line 155): the error string is truthy. -/
def errorVisible (s : UIState) : Bool :=
  s.error ≠ ""

/-- C2 witness: an article carrying a title and a PMID but no `AbstractText`
sub-element parses to a record whose abstract is the placeholder and renders
unchanged. -/
def articleNoAbstract : Xml :=
  Xml.elem "PubmedArticle" []
    [Xml.elem "MedlineCitation" []
      [Xml.elem "PMID" [] [Xml.text "7"],
       Xml.elem "Article" []
         [Xml.elem "ArticleTitle" [] [Xml.text "A title"]]]]

def paperNoAbstract : Paper :=
  { id := "7"
    title := "A title"
    authors := []
    abstract := "No abstract available"
    journal := "Unknown Journal"
    year := "N/A"
    pmid := "7"
    doi := none }

def mkAuthor (n : String) : Xml :=
  Xml.elem "Author" [] [Xml.elem "LastName" [] [Xml.text n]]

/-- Article with six named authors (and a title and a PMID). -/
def articleSixAuthors : Xml :=
  Xml.elem "PubmedArticle" []
    [Xml.elem "PMID" [] [Xml.text "42"],
     Xml.elem "ArticleTitle" [] [Xml.text "Sample"],
     Xml.elem "AuthorList" []
       [mkAuthor "A", mkAuthor "B", mkAuthor "C", mkAuthor "D", mkAuthor "E", mkAuthor "F"]]

def paperSixAuthors : Paper :=
  { id := "42"
    title := "Sample"
    authors := ["A", "B", "C", "D", "E"]
    abstract := "No abstract available"
    journal := "Unknown Journal"
    year := "N/A"
    pmid := "42"
    doi := none }

/-- Provider in which both fetches reject. -/
def envReject : Provider :=
  { searchFetch := .error (), detailFetch := .error () }

/-- State holding a whitespace-only query and nontrivial leftovers from a
previous search. -/
def sBlank : UIState :=
  { query := "   "
    papers := [paperNoAbstract]
    loading := false
    error := "old error"
    resultCount := 5
    maxResults := "20"
    sortBy := "relevance" }

/-- State holding a fresh query and no leftovers. -/
def sQuery : UIState :=
  { query := "cancer"
    papers := []
    loading := false
    error := ""
    resultCount := 0
    maxResults := "20"
    sortBy := "relevance" }

/-- Provider with the HTTP success flags of both responses overridden; the
page never reads them, so this cannot change a run. -/
def setStatus (env : Provider) (b1 b2 : Bool) : Provider :=
  { searchFetch := env.searchFetch.map (fun r => { r with ok := b1 })
    detailFetch := env.detailFetch.map (fun d => { d with ok := b2 }) }

/-- Provider whose detail-fetch resolves with a non-success HTTP status and
an error-page body (which parses to a document without article nodes). -/
def envBadStatusDetail : Provider :=
  { searchFetch :=
      .ok { ok := true, json := some (some { count := some "1", idlist := some ["101"] }) }
    detailFetch :=
      .ok { ok := false
            xmlDoc := some (Xml.elem "html" [] [Xml.text "Internal Server Error"]) } }

/-- Provider whose identifier search succeeds with one id and count 7 but
whose detail-fetch rejects. -/
def envDetailReject : Provider :=
  { searchFetch :=
      .ok { ok := true, json := some (some { count := some "7", idlist := some ["101"] }) }
    detailFetch := .error () }

/-- State left by a previous successful search: result count 7. -/
def sPrev : UIState :=
  { query := "covid"
    papers := []
    loading := false
    error := ""
    resultCount := 7
    maxResults := "20"
    sortBy := "relevance" }

/-- Provider whose identifier search reports count 3 with one id, after which
the detail-fetch rejects. -/
def envDetailReject3 : Provider :=
  { searchFetch :=
      .ok { ok := true, json := some (some { count := some "3", idlist := some ["201"] }) }
    detailFetch := .error () }

example : textContent (Xml.elem "a" [] [Xml.text "x", Xml.elem "b" [] [Xml.text "y"]]) = "xy" := rfl

example :
    parseArticle (Xml.elem "PubmedArticle" [] [Xml.elem "PMID" [] [Xml.text "1"]]) = none := rfl

example :
    (parseArticle (Xml.elem "PubmedArticle" []
      [Xml.elem "PMID" [] [Xml.text "1"],
       Xml.elem "ArticleTitle" [] [Xml.text "T"]])).isSome = true := rfl

lemma parseArticle_some_elim (article : Xml) (p : Paper) (h : parseArticle article = some p)
    (titleE pmidE : Xml)
    (h1 : queryFirst article (byTag "ArticleTitle") = some titleE)
    (h2 : queryFirst article (byTag "PMID") = some pmidE) :
    p = { id := jsOr (textContent pmidE) ""
          title := jsOr (textContent titleE) ""
          authors := (observedAuthors article).take 5
          abstract := jsOr (optText (queryFirst article (byTag "AbstractText")))
            "No abstract available"
          journal := jsOr (optText (queryFirstDesc article "Journal" "Title")) "Unknown Journal"
          year := jsOr (optText (queryFirstDesc article "PubDate" "Year")) "N/A"
          pmid := jsOr (textContent pmidE) ""
          doi := if optText (queryFirst article (byTagAttr "ArticleId" "IdType" "doi")) = ""
            then none
            else some (optText (queryFirst article (byTagAttr "ArticleId" "IdType" "doi"))) } := by
  unfold parseArticle at h
  rw [h1, h2] at h
  exact (Option.some_inj.mp h).symm

lemma parseArticle_some_exists (article : Xml) (p : Paper) (h : parseArticle article = some p) :
    ∃ titleE pmidE, queryFirst article (byTag "ArticleTitle") = some titleE ∧
      queryFirst article (byTag "PMID") = some pmidE := by
  unfold parseArticle at h
  cases h1 : queryFirst article (byTag "ArticleTitle") with
  | none => rw [h1] at h; exact absurd h (by simp)
  | some titleE =>
    cases h2 : queryFirst article (byTag "PMID") with
    | none => rw [h1, h2] at h; exact absurd h (by simp)
    | some pmidE => exact ⟨titleE, pmidE, rfl, rfl⟩

/-- C1: the parser constructs a Paper from an article node exactly when both
an `ArticleTitle` and a `PMID` sub-element are present; every `PubmedArticle`
node of the payload is fed through this per-article step, and articles that
yield nothing are silently absent from the output. -/
theorem records_iff_title_and_pmid (article : Xml) (xmlDoc : Xml) :
    ((parseArticle article).isSome = true ↔
      ((queryFirst article (byTag "ArticleTitle")).isSome = true ∧
        (queryFirst article (byTag "PMID")).isSome = true)) ∧
    parseArticles xmlDoc = (queryAll xmlDoc (byTag "PubmedArticle")).filterMap parseArticle := by
  refine ⟨?_, rfl⟩
  cases h1 : queryFirst article (byTag "ArticleTitle") <;>
    cases h2 : queryFirst article (byTag "PMID") <;>
      simp [parseArticle, h1, h2]

lemma length_jsSubstringTo (s : String) (n : Nat) :
    (jsSubstringTo s n).length = min n s.length := by
  show (s.data.take n).length = min n s.data.length
  exact List.length_take n s.data

lemma renderAbstract_spec (p : Paper) :
    (renderAbstract p = jsSubstringTo p.abstract 400 ++ "..." ↔ 400 < p.abstract.length) ∧
    (p.abstract.length ≤ 400 → renderAbstract p = p.abstract) := by
  by_cases hlen : 400 < p.abstract.length
  · refine ⟨⟨fun _ => hlen, fun _ => ?_⟩, fun hle => absurd hlen (by omega)⟩
    unfold renderAbstract
    rw [if_pos hlen]
  · have hle : p.abstract.length ≤ 400 := by omega
    have hr : renderAbstract p = p.abstract := by
      unfold renderAbstract
      rw [if_neg hlen]
    refine ⟨⟨fun heq => ?_, fun hgt => absurd hgt hlen⟩, fun _ => hr⟩
    rw [hr] at heq
    have hlen2 := congrArg String.length heq
    rw [String.length_append, length_jsSubstringTo] at hlen2
    have h3 : ("..." : String).length = 3 := rfl
    rw [h3] at hlen2
    omega

/-- C2: for every parsed Paper, the rendered abstract is the 400-character
cut followed by an ellipsis exactly when the stored abstract is longer than
400 characters; shorter abstracts render unchanged; and an article without an
`AbstractText` sub-element stores the literal placeholder. -/
theorem abstract_rendering_spec (article : Xml) (p : Paper)
    (h : parseArticle article = some p) :
    (renderAbstract p = jsSubstringTo p.abstract 400 ++ "..." ↔ 400 < p.abstract.length) ∧
    (p.abstract.length ≤ 400 → renderAbstract p = p.abstract) ∧
    (queryFirst article (byTag "AbstractText") = none →
      p.abstract = "No abstract available") := by
  refine ⟨(renderAbstract_spec p).1, (renderAbstract_spec p).2, fun habs => ?_⟩
  obtain ⟨titleE, pmidE, h1, h2⟩ := parseArticle_some_exists article p h
  rw [parseArticle_some_elim article p h titleE pmidE h1 h2, habs]
  rfl

theorem abstract_rendering_spec_witness :
    (renderAbstract paperNoAbstract =
        jsSubstringTo paperNoAbstract.abstract 400 ++ "..." ↔
      400 < paperNoAbstract.abstract.length) ∧
    (paperNoAbstract.abstract.length ≤ 400 →
      renderAbstract paperNoAbstract = paperNoAbstract.abstract) ∧
    (queryFirst articleNoAbstract (byTag "AbstractText") = none →
      paperNoAbstract.abstract = "No abstract available") :=
  abstract_rendering_spec articleNoAbstract paperNoAbstract rfl

/-- C10: every parsed Paper has `id` equal to `pmid`, both taken from the
text content of the first `PMID` sub-element (empty-string default via `||`),
so the card key, the PMID meta line and the outbound link share the same
identifier. -/
theorem id_eq_pmid (article : Xml) (p : Paper) (h : parseArticle article = some p) :
    p.id = p.pmid ∧
    ∀ pmidE, queryFirst article (byTag "PMID") = some pmidE →
      p.id = jsOr (textContent pmidE) "" := by
  obtain ⟨titleE, pmidE, h1, h2⟩ := parseArticle_some_exists article p h
  rw [parseArticle_some_elim article p h titleE pmidE h1 h2]
  exact ⟨rfl, fun pmidE2 h2b => by rw [h2] at h2b; rw [Option.some_inj.mp h2b]⟩

theorem id_eq_pmid_witness :
    (paperNoAbstract.id = paperNoAbstract.pmid ∧
      ∀ pmidE, queryFirst articleNoAbstract (byTag "PMID") = some pmidE →
        paperNoAbstract.id = jsOr (textContent pmidE) "") :=
  id_eq_pmid articleNoAbstract paperNoAbstract rfl

/-- C3 counterexample: an article with six named authors still renders the
marker, although the author count observed by the parser is 6, not exactly 5:
the marker indicates at-least-5, not exactly-5. -/
theorem et_al_counterexample :
    (observedAuthors articleSixAuthors).length = 6 ∧
    (parseArticle articleSixAuthors).map renderAuthorsLine =
      some "A, B, C, D, E et al." := by
  exact ⟨rfl, rfl⟩

/-- C3 (amended): the parser stores at most the first 5 observed author
names, and the rendered author line carries the marker exactly when the
parser observed at least 5 named authors (equivalently, when the stored list
has exactly 5 entries). -/
theorem authors_cap_and_et_al (article : Xml) (p : Paper)
    (h : parseArticle article = some p) :
    p.authors = (observedAuthors article).take 5 ∧
    p.authors.length ≤ 5 ∧
    (renderAuthorsLine p = String.intercalate ", " p.authors ++ " et al." ↔
      5 ≤ (observedAuthors article).length) := by
  obtain ⟨titleE, pmidE, h1, h2⟩ := parseArticle_some_exists article p h
  have hp := parseArticle_some_elim article p h titleE pmidE h1 h2
  have hauth : p.authors = (observedAuthors article).take 5 := by rw [hp]
  have hlen : p.authors.length = min 5 (observedAuthors article).length := by
    rw [hauth]; exact List.length_take ..
  refine ⟨hauth, by omega, ?_⟩
  by_cases h5 : p.authors.length = 5
  · have : 5 ≤ (observedAuthors article).length := by omega
    exact iff_of_true (by unfold renderAuthorsLine; rw [if_pos h5]) this
  · have hlt : ¬ 5 ≤ (observedAuthors article).length := by omega
    simp only [renderAuthorsLine, if_neg h5]
    refine ⟨fun heq => ?_, fun hge => absurd hge hlt⟩
    have hlen2 := congrArg String.length heq
    rw [String.length_append, String.length_append] at hlen2
    have h7 : (" et al." : String).length = 7 := rfl
    have h0 : ("" : String).length = 0 := rfl
    rw [h7, h0] at hlen2
    omega

theorem authors_cap_and_et_al_witness :
    (paperSixAuthors.authors = (observedAuthors articleSixAuthors).take 5 ∧
      paperSixAuthors.authors.length ≤ 5 ∧
      (renderAuthorsLine paperSixAuthors =
          String.intercalate ", " paperSixAuthors.authors ++ " et al." ↔
        5 ≤ (observedAuthors articleSixAuthors).length)) :=
  authors_cap_and_et_al articleSixAuthors paperSixAuthors rfl

/-- C6: an empty or whitespace-only query short-circuits the handler: no
request is issued and the whole UI state is returned unchanged. -/
theorem empty_query_noop (s : UIState) (env : Provider) (h : jsTrim s.query = "") :
    searchPapers s env =
      { finalState := s, searchRequested := none, detailRequested := none } := by
  unfold searchPapers
  rw [if_pos h]

theorem empty_query_noop_witness :
    searchPapers sBlank envReject =
      { finalState := sBlank, searchRequested := none, detailRequested := none } :=
  empty_query_noop sBlank envReject (by decide)

/-- C5: a search whose identifier-search response carries an empty `idlist`
ends with the no-results message, issues no detail-fetch request, and
produces no paper records; the message starts with the text required by the
claim. -/
theorem zero_ids_no_results (s : UIState) (b : Bool) (cnt : Option String)
    (df : Except Unit DetailResponse) (hq : jsTrim s.query ≠ "") :
    searchPapers s
        { searchFetch :=
            .ok { ok := b, json := some (some { count := cnt, idlist := some [] }) }
          detailFetch := df } =
      { finalState := { s with loading := false, error := noResultsMsg, papers := [] }
        searchRequested := some (searchUrl s.query s.maxResults s.sortBy)
        detailRequested := none } ∧
    ("No research papers found").data.isPrefixOf noResultsMsg.data = true := by
  constructor
  · unfold searchPapers
    rw [if_neg hq]
    rfl
  · rfl

theorem zero_ids_no_results_witness :
    searchPapers sQuery
        { searchFetch :=
            .ok { ok := true, json := some (some { count := some "0", idlist := some [] }) }
          detailFetch := .error () } =
      { finalState := { sQuery with loading := false, error := noResultsMsg, papers := [] }
        searchRequested := some (searchUrl sQuery.query sQuery.maxResults sQuery.sortBy)
        detailRequested := none } ∧
    ("No research papers found").data.isPrefixOf noResultsMsg.data = true :=
  zero_ids_no_results sQuery true (some "0") (.error ()) (by decide)

lemma encodeURIComponent_append (a b : String) :
    encodeURIComponent (a ++ b) = encodeURIComponent a ++ encodeURIComponent b := by
  show String.mk ((a.data ++ b.data).map encodeChar).flatten = _
  rw [List.map_append, List.flatten_append]
  rfl

/-- C8: past the emptiness guard the identifier-search request is issued with
the built URL, whose term parameter is the URL-encoding of the user text
conjoined with the fixed drug-development filter; the encoded term is the
URL-encoded user text followed by the URL-encoded conjunction and filter. -/
theorem search_term_structure (s : UIState) (env : Provider) (hq : jsTrim s.query ≠ "") :
    (searchPapers s env).searchRequested =
      some (searchUrl s.query s.maxResults s.sortBy) ∧
    searchUrl s.query s.maxResults s.sortBy =
      "https://eutils.ncbi.nlm.nih.gov/entrez/eutils/esearch.fcgi?db=pubmed&term=" ++
        searchTerm s.query ++ "&retmax=" ++ s.maxResults ++ "&retmode=json&sort=" ++
        s.sortBy ∧
    searchTerm s.query =
      encodeURIComponent s.query ++ encodeURIComponent " AND " ++
        encodeURIComponent domainFilter := by
  refine ⟨?_, rfl, ?_⟩
  · unfold searchPapers
    rw [if_neg hq]
    obtain ⟨sf, df⟩ := env
    cases sf with
    | error e => rfl
    | ok r =>
      obtain ⟨okb, json⟩ := r
      cases json with
      | none => rfl
      | some sj =>
        cases sj with
        | none => rfl
        | some es =>
          obtain ⟨cnt, idl⟩ := es
          cases idl with
          | none => rfl
          | some ids =>
            cases ids with
            | nil => rfl
            | cons i rest =>
              cases df with
              | error e => rfl
              | ok d =>
                obtain ⟨okd, xd⟩ := d
                cases xd <;> rfl
  · unfold searchTerm
    rw [encodeURIComponent_append, encodeURIComponent_append]

theorem search_term_structure_witness :
    (searchPapers sQuery envReject).searchRequested =
      some (searchUrl sQuery.query sQuery.maxResults sQuery.sortBy) ∧
    searchUrl sQuery.query sQuery.maxResults sQuery.sortBy =
      "https://eutils.ncbi.nlm.nih.gov/entrez/eutils/esearch.fcgi?db=pubmed&term=" ++
        searchTerm sQuery.query ++ "&retmax=" ++ sQuery.maxResults ++
        "&retmode=json&sort=" ++ sQuery.sortBy ∧
    searchTerm sQuery.query =
      encodeURIComponent sQuery.query ++ encodeURIComponent " AND " ++
        encodeURIComponent domainFilter :=
  search_term_structure sQuery envReject (by decide)


lemma body_with (s : UIState) (env : Provider) (sf : Except Unit SearchResponse)
    (df : Except Unit DetailResponse) (h1 : env.searchFetch = sf)
    (h2 : env.detailFetch = df) :
    searchPapersBody s env = searchPapersBody s { searchFetch := sf, detailFetch := df } := by
  obtain ⟨a, b⟩ := env
  cases h1
  cases h2
  rfl

lemma searchPapers_eq_body (s : UIState) (env : Provider) (hq : jsTrim s.query ≠ "") :
    searchPapers s env = searchPapersBody s env := by
  unfold searchPapers
  rw [if_neg hq]

lemma body_ignores_status (s : UIState) (env : Provider) (b1 b2 : Bool) :
    searchPapersBody s (setStatus env b1 b2) = searchPapersBody s env := by
  obtain ⟨sf, df⟩ := env
  cases sf with
  | error e => cases e; rfl
  | ok r =>
    obtain ⟨okb, json⟩ := r
    cases json with
    | none => rfl
    | some sj =>
      cases sj with
      | none => rfl
      | some es =>
        obtain ⟨cnt, idl⟩ := es
        cases idl with
        | none => rfl
        | some ids =>
          cases ids with
          | nil => rfl
          | cons i rest =>
            cases df with
            | error e2 => cases e2; rfl
            | ok d =>
              obtain ⟨okd, xd⟩ := d
              cases xd <;> rfl

lemma searchPapers_ignores_status (s : UIState) (env : Provider) (b1 b2 : Bool) :
    searchPapers s (setStatus env b1 b2) = searchPapers s env := by
  by_cases hq : jsTrim s.query = ""
  · unfold searchPapers
    rw [if_pos hq, if_pos hq]
  · rw [searchPapers_eq_body s (setStatus env b1 b2) hq, searchPapers_eq_body s env hq]
    exact body_ignores_status s env b1 b2

/-- C4 (amended): every caught exception — a rejected fetch or a failed body
read/parse at either step — sets the generic FetchError message; the HTTP
status flags are never inspected, so overriding them cannot change the run
(a non-success status is processed exactly like a success with the same
body). -/
theorem fetch_failures_give_fetch_error (s : UIState) (env : Provider)
    (hq : jsTrim s.query ≠ "") :
    (env.searchFetch = .error () →
      (searchPapers s env).finalState.error = fetchErrorMsg) ∧
    (∀ b, env.searchFetch = .ok { ok := b, json := none } →
      (searchPapers s env).finalState.error = fetchErrorMsg) ∧
    (∀ b cnt ids,
      env.searchFetch =
        .ok { ok := b, json := some (some { count := cnt, idlist := some ids }) } →
      ids ≠ [] → env.detailFetch = .error () →
      (searchPapers s env).finalState.error = fetchErrorMsg) ∧
    (∀ b cnt ids b2,
      env.searchFetch =
        .ok { ok := b, json := some (some { count := cnt, idlist := some ids }) } →
      ids ≠ [] → env.detailFetch = .ok { ok := b2, xmlDoc := none } →
      (searchPapers s env).finalState.error = fetchErrorMsg) ∧
    (∀ b1 b2, searchPapers s (setStatus env b1 b2) = searchPapers s env) := by
  refine ⟨fun h1 => ?_, fun b h1 => ?_, fun b cnt ids h1 hne h2 => ?_,
    fun b cnt ids b2 h1 hne h2 => ?_, fun b1 b2 => searchPapers_ignores_status s env b1 b2⟩
  · rw [searchPapers_eq_body s env hq, body_with s env _ env.detailFetch h1 rfl]
    rfl
  · rw [searchPapers_eq_body s env hq, body_with s env _ env.detailFetch h1 rfl]
    rfl
  · cases ids with
    | nil => exact absurd rfl hne
    | cons i rest =>
      rw [searchPapers_eq_body s env hq, body_with s env _ _ h1 h2]
      rfl
  · cases ids with
    | nil => exact absurd rfl hne
    | cons i rest =>
      rw [searchPapers_eq_body s env hq, body_with s env _ _ h1 h2]
      rfl

theorem fetch_failures_give_fetch_error_witness :
    (searchPapers sQuery envReject).finalState.error = fetchErrorMsg :=
  (fetch_failures_give_fetch_error sQuery envReject (by decide)).1 rfl

/-- C4 counterexample: a non-success HTTP status at the detail-fetch step
does not produce the FetchError outcome — the run ends with no error message
at all (and zero parsed papers), because the code never inspects the status. -/
theorem status_not_fetch_error_counterexample :
    (envBadStatusDetail.detailFetch.toOption.map DetailResponse.ok = some false) ∧
    (searchPapers sQuery envBadStatusDetail).finalState.error = "" ∧
    (searchPapers sQuery envBadStatusDetail).finalState.error ≠ fetchErrorMsg ∧
    (searchPapers sQuery envBadStatusDetail).finalState.papers = [] := by
  decide

/-- C7 counterexample: when the detail-fetch step fails, the result count
captured from the failed attempt's identifier-search call stays in state and
the statistics line renders (count 7, showing 0) alongside the error. -/
theorem stats_after_failure_counterexample :
    (searchPapers sQuery envDetailReject).finalState.error = fetchErrorMsg ∧
    (searchPapers sQuery envDetailReject).finalState.resultCount = 7 ∧
    sQuery.resultCount = 0 ∧
    statsVisible (searchPapers sQuery envDetailReject).finalState = true ∧
    (searchPapers sQuery envDetailReject).finalState.papers = [] := by
  decide

/-- C7 (amended): a failed attempt renders no paper cards (the papers list is
empty whenever the error message is set), but the failure is not fully
atomic: when the detail-fetch step fails, the result count captured from the
attempt's identifier-search call remains in state, and when positive the
statistics line is visible alongside the error. -/
theorem failure_atomicity_amended (s : UIState) (env : Provider)
    (hq : jsTrim s.query ≠ "") :
    ((searchPapers s env).finalState.error ≠ "" →
      (searchPapers s env).finalState.papers = []) ∧
    (∀ b cnt ids,
      env.searchFetch =
        .ok { ok := b, json := some (some { count := cnt, idlist := some ids }) } →
      ids ≠ [] →
      (env.detailFetch = .error () ∨
        ∃ b2, env.detailFetch = .ok { ok := b2, xmlDoc := none }) →
      ((searchPapers s env).finalState.error = fetchErrorMsg ∧
       (searchPapers s env).finalState.resultCount = resultCountOf cnt ∧
       (0 < resultCountOf cnt →
         statsVisible (searchPapers s env).finalState = true))) := by
  rw [searchPapers_eq_body s env hq]
  constructor
  · obtain ⟨sf, df⟩ := env
    cases sf with
    | error e => intro _; rfl
    | ok r =>
      obtain ⟨okb, json⟩ := r
      cases json with
      | none => intro _; rfl
      | some sj =>
        cases sj with
        | none => intro _; rfl
        | some es =>
          obtain ⟨cnt, idl⟩ := es
          cases idl with
          | none => intro _; rfl
          | some ids =>
            cases ids with
            | nil => intro _; rfl
            | cons i rest =>
              cases df with
              | error e => intro _; rfl
              | ok d =>
                obtain ⟨okd, xd⟩ := d
                cases xd with
                | none => intro _; rfl
                | some x => intro h; exact absurd rfl h
  · intro b cnt ids h1 hne h2
    cases ids with
    | nil => exact absurd rfl hne
    | cons i rest =>
      rcases h2 with h2 | ⟨b2, h2⟩
      · rw [body_with s env _ _ h1 h2]
        exact ⟨rfl, rfl, fun hpos => decide_eq_true ⟨hpos, rfl⟩⟩
      · rw [body_with s env _ _ h1 h2]
        exact ⟨rfl, rfl, fun hpos => decide_eq_true ⟨hpos, rfl⟩⟩

theorem failure_atomicity_amended_witness :
    ((searchPapers sQuery envDetailReject).finalState.error = fetchErrorMsg ∧
     (searchPapers sQuery envDetailReject).finalState.resultCount =
       resultCountOf (some "7") ∧
     (0 < resultCountOf (some "7") →
       statsVisible (searchPapers sQuery envDetailReject).finalState = true)) :=
  (failure_atomicity_amended sQuery envDetailReject (by decide)).2 true (some "7")
    ["101"] rfl (by decide) (Or.inl rfl)

/-- C9 counterexample: a subsequent search that ends in FetchError at the
detail-fetch step does not keep the previous successful search's count (7):
the count captured by the failing attempt (3) replaces it. -/
theorem prev_count_overwritten_counterexample :
    sPrev.resultCount = 7 ∧
    (searchPapers sPrev envDetailReject3).finalState.error = fetchErrorMsg ∧
    (searchPapers sPrev envDetailReject3).finalState.resultCount = 3 := by
  decide

/-- C9 (amended): starting a new search clears the previous papers and error
but not the stored result count; after a NoResultsError or an
identifier-step FetchError the previous count remains in state and, when
positive, the statistics line renders alongside the error; a detail-step
FetchError instead overwrites the count with the failing attempt's own
count. -/
theorem result_count_persistence_amended (s : UIState) (env : Provider)
    (hq : jsTrim s.query ≠ "") :
    (env.searchFetch = .error () →
      (searchPapers s env).finalState.resultCount = s.resultCount ∧
      (searchPapers s env).finalState.papers = [] ∧
      (searchPapers s env).finalState.error = fetchErrorMsg ∧
      (0 < s.resultCount →
        statsVisible (searchPapers s env).finalState = true ∧
        errorVisible (searchPapers s env).finalState = true)) ∧
    (∀ b cnt,
      env.searchFetch =
        .ok { ok := b, json := some (some { count := cnt, idlist := some [] }) } →
      (searchPapers s env).finalState.resultCount = s.resultCount ∧
      (searchPapers s env).finalState.papers = [] ∧
      (searchPapers s env).finalState.error = noResultsMsg ∧
      (0 < s.resultCount →
        statsVisible (searchPapers s env).finalState = true ∧
        errorVisible (searchPapers s env).finalState = true)) ∧
    (∀ b cnt ids,
      env.searchFetch =
        .ok { ok := b, json := some (some { count := cnt, idlist := some ids }) } →
      ids ≠ [] → env.detailFetch = .error () →
      (searchPapers s env).finalState.resultCount = resultCountOf cnt ∧
      (searchPapers s env).finalState.error = fetchErrorMsg) := by
  rw [searchPapers_eq_body s env hq]
  refine ⟨fun h1 => ?_, fun b cnt h1 => ?_, fun b cnt ids h1 hne h2 => ?_⟩
  · rw [body_with s env _ env.detailFetch h1 rfl]
    exact ⟨rfl, rfl, rfl, fun hpos =>
      ⟨decide_eq_true ⟨hpos, rfl⟩, decide_eq_true (show fetchErrorMsg ≠ "" by decide)⟩⟩
  · rw [body_with s env _ env.detailFetch h1 rfl]
    exact ⟨rfl, rfl, rfl, fun hpos =>
      ⟨decide_eq_true ⟨hpos, rfl⟩, decide_eq_true (show noResultsMsg ≠ "" by decide)⟩⟩
  · cases ids with
    | nil => exact absurd rfl hne
    | cons i rest =>
      rw [body_with s env _ _ h1 h2]
      exact ⟨rfl, rfl⟩

theorem result_count_persistence_amended_witness :
    ((searchPapers sPrev envReject).finalState.resultCount = sPrev.resultCount ∧
     (searchPapers sPrev envReject).finalState.papers = [] ∧
     (searchPapers sPrev envReject).finalState.error = fetchErrorMsg ∧
     (0 < sPrev.resultCount →
       statsVisible (searchPapers sPrev envReject).finalState = true ∧
       errorVisible (searchPapers sPrev envReject).finalState = true)) :=
  (result_count_persistence_amended sPrev envReject (by decide)).1 rfl

theorem records_iff_title_and_pmid_witness :
    (((parseArticle articleNoAbstract).isSome = true ↔
      ((queryFirst articleNoAbstract (byTag "ArticleTitle")).isSome = true ∧
        (queryFirst articleNoAbstract (byTag "PMID")).isSome = true)) ∧
    parseArticles articleNoAbstract =
      (queryAll articleNoAbstract (byTag "PubmedArticle")).filterMap parseArticle) :=
  records_iff_title_and_pmid articleNoAbstract articleNoAbstract
